import Mathlib

set_option maxHeartbeats 1000000

namespace Sglang

/-
Shallow embedding of the distributed control plane of sglang
(python/sglang/srt/orchestration/std/scheduler.py and
python/sglang/srt/layers/moe/a2a_output.py).
-/

/-- Request variants handled by the scheduler, mirroring the classes imported
from sglang.srt.managers.io_struct and registered in
SchedulerCommunicator.__init__.  Payload fields are opaque to the
broadcaster/router; we keep a numeric id on the variants the scenarios use. -/
inductive Req where
  | tokenizedGenerate (rid : Nat)
  | tokenizedEmbedding (rid : Nat)
  | flushCache
  | abort (rid : Nat)
  | updateWeightFromDisk
  | initWeightsUpdateGroup
  | updateWeightsFromDistributed
  | updateWeightsFromTensor
  | getWeightsByName
  | profile
  | openSession
  | closeSession
  | releaseMemoryOccupation
  | resumeMemoryOccupation
  deriving DecidableEq

/-- The isinstance test on line 132 of scheduler.py:
isinstance(req, (TokenizedGenerateReqInput, TokenizedEmbeddingReqInput)). -/
def isWorkReq : Req → Bool
  | .tokenizedGenerate _ => true
  | .tokenizedEmbedding _ => true
  | _ => false

/-- The drain loop of _recv_requests (lines 116-123): repeatedly receive with
zmq.NOBLOCK, appending each received request, until the socket raises
zmq.ZMQError (mailbox empty).  The mailbox is the abstract ordered channel of
the spec, modelled as the list of messages currently queued; a non-blocking
receive takes the head or fails on an empty queue. -/
def drainLoop : List Req → List Req → List Req
  | [], acc => acc
  | q :: rest, acc => drainLoop rest (acc ++ [q])

/-- Static rank topology (fields read from self.core in scheduler.py).
Ranks are global tensor-parallel indices 0 .. tp_size - 1; the derived
per-rank fields follow sglang's layout: attn_tp_rank = tp_rank mod
attn_tp_size, dp_rank = tp_rank div attn_tp_size. -/
structure Topology where
  tp_size : Nat
  attn_tp_size : Nat
  deriving DecidableEq

def Topology.attnTpRank (t : Topology) (r : Nat) : Nat := r % t.attn_tp_size

def Topology.dpRank (t : Topology) (r : Nat) : Nat := r / t.attn_tp_size

/-- Which process group a collective broadcast call was issued over. -/
inductive GroupCall where
  | attnTp
  | fullTp
  deriving DecidableEq

/-- Modelled from the spec: broadcast_pyobj lives in sglang.srt.utils, which is
not under src/.  Spec section 6: an abstract collective
broadcast(value, source_rank, group) -> value where every participant returns
the source's value.  In this deterministic world every rank computes the same
function of the source rank's mailbox, so we model the collective by handing
each participant the value held at the source rank, which callers compute and
pass in. -/
def broadcast_pyobj (valueAtSrc : List Req) : List Req := valueAtSrc

/-- The local drain step of _recv_requests (lines 115-125): the leader of the
attention-TP group (attn_tp_rank == 0) drains its inbound mailbox; every
other rank produces the placeholder None. -/
def drainStep (t : Topology) (mailbox : Nat → List Req) (r : Nat) :
    Option (List Req) :=
  if t.attnTpRank r = 0 then some (drainLoop (mailbox r) []) else none

/-- SchedulerCommunicator._recv_requests (lines 113-164), run at global rank r.
mailbox gives each rank's inbound queue (only attention-group leaders own a
real one).  Returns the request list the rank ends up with (none models the
Python TypeError of None + list, which cannot occur in a consistent topology)
together with the trace of collective broadcast calls issued.  Broadcast
results are the value held at the source rank (see broadcast_pyobj): for the
work broadcast the source is attn_tp_rank_0 = dp_rank * attn_tp_size, for the
control and non-partitioned broadcasts the source is global rank 0. -/
def recvRequests (enableDpAttention : Bool) (t : Topology)
    (mailbox : Nat → List Req) (r : Nat) :
    Option (List Req) × List GroupCall :=
  let recvReqs : Option (List Req) := drainStep t mailbox r
  if enableDpAttention then
    let workReqs : Option (List Req) :=
      recvReqs.map (fun reqs => reqs.filter (fun q => isWorkReq q))
    let controlReqs : Option (List Req) :=
      recvReqs.map (fun reqs => reqs.filter (fun q => !isWorkReq q))
    let attnTpRank0 : Nat := t.dpRank r * t.attn_tp_size
    let workBc : Option (List Req) × List GroupCall :=
      if t.attn_tp_size ≠ 1 then
        (some (broadcast_pyobj
          ((drainLoop (mailbox attnTpRank0) []).filter (fun q => isWorkReq q))),
         [GroupCall.attnTp])
      else (workReqs, [])
    let controlBc : Option (List Req) × List GroupCall :=
      if t.tp_size ≠ 1 then
        (some (broadcast_pyobj
          ((drainLoop (mailbox 0) []).filter (fun q => !isWorkReq q))),
         [GroupCall.fullTp])
      else (controlReqs, [])
    match workBc.1, controlBc.1 with
    | some w, some c => (some (w ++ c), workBc.2 ++ controlBc.2)
    | _, _ => (none, workBc.2 ++ controlBc.2)
  else
    if t.tp_size ≠ 1 then
      (some (broadcast_pyobj (drainLoop (mailbox 0) [])), [GroupCall.fullTp])
    else
      (recvReqs, [])

lemma drainLoop_eq (m : List Req) : ∀ acc, drainLoop m acc = acc ++ m := by
  induction m with
  | nil => intro acc; simp [drainLoop]
  | cons q rest ih => intro acc; simp [drainLoop, ih]

lemma drainLoop_nil_eq (m : List Req) : drainLoop m [] = m := by
  simp [drainLoop_eq]

/-- C2: on the leader rank (attn_tp_rank == 0) the drain step of
_recv_requests repeatedly performs a non-blocking receive, appending each
received request in order until the mailbox is empty, and returns exactly the
queued sequence (possibly empty); on every non-leader rank it produces the
empty placeholder (None). -/
theorem drain_step_leader_drains_in_order (t : Topology)
    (mailbox : Nat → List Req) (r : Nat) :
    drainStep t mailbox r =
      if t.attnTpRank r = 0 then some (mailbox r) else none := by
  by_cases h : t.attnTpRank r = 0 <;> simp [drainStep, h, drainLoop_nil_eq]

/-- C1: in partitioned mode (enable_dp_attention), _recv_requests splits the
leader's drained sequence into the work subsequence (generation/embedding
requests, original relative order) and the control subsequence (everything
else, original relative order), broadcasts work over the attention-TP group
and control over the full TP group, and every rank returns work ++ control,
where work comes from the rank's attention-group leader and control from
global rank 0. -/
theorem recv_requests_partitioned_work_then_control (t : Topology)
    (mailbox : Nat → List Req) (r : Nat) (hr : r < t.tp_size) :
    recvRequests true t mailbox r =
      (some ((mailbox (t.dpRank r * t.attn_tp_size)).filter
               (fun q => isWorkReq q)
             ++ (mailbox 0).filter (fun q => !isWorkReq q)),
       (if t.attn_tp_size ≠ 1 then [GroupCall.attnTp] else [])
         ++ (if t.tp_size ≠ 1 then [GroupCall.fullTp] else [])) := by
  by_cases ha : t.attn_tp_size = 1
  · by_cases htp : t.tp_size = 1
    · have hr0 : r = 0 := Nat.lt_one_iff.mp (htp ▸ hr)
      subst hr0
      simp [recvRequests, drainStep, Topology.attnTpRank, Topology.dpRank,
        ha, htp, drainLoop_nil_eq]
    · simp [recvRequests, drainStep, Topology.attnTpRank, Topology.dpRank,
        ha, htp, drainLoop_nil_eq, broadcast_pyobj, Nat.mod_one,
        Nat.div_one, Nat.mul_one]
  · by_cases htp : t.tp_size = 1
    · have hr0 : r = 0 := Nat.lt_one_iff.mp (htp ▸ hr)
      subst hr0
      simp [recvRequests, drainStep, Topology.attnTpRank, Topology.dpRank,
        ha, htp, drainLoop_nil_eq, broadcast_pyobj, Nat.zero_mod,
        Nat.zero_div]
    · simp [recvRequests, drainStep, ha, htp, drainLoop_nil_eq,
        broadcast_pyobj]

def scenarioMailbox : Nat → List Req :=
  fun _ => [Req.flushCache, Req.tokenizedGenerate 5, Req.abort 7]

/-- Witness for C1: the spec scenario — drained sequence
[ControlA, Gen(id=5), ControlB] with attn_tp_size = 2, tp_size = 4 yields
[Gen(id=5), ControlA, ControlB] (here on rank 1), with one broadcast per
group. -/
theorem recv_requests_partitioned_work_then_control_witness :
    (1 : Nat) < 4 ∧
    recvRequests true ⟨4, 2⟩ scenarioMailbox 1 =
      (some [Req.tokenizedGenerate 5, Req.flushCache, Req.abort 7],
       [GroupCall.attnTp, GroupCall.fullTp]) :=
  ⟨by decide, by
    rw [recv_requests_partitioned_work_then_control ⟨4, 2⟩ scenarioMailbox 1
      (by decide)]
    decide⟩

lemma recvRequests_dp_calls (t : Topology) (mailbox : Nat → List Req)
    (r : Nat) :
    (recvRequests true t mailbox r).2 =
      (if t.attn_tp_size ≠ 1 then [GroupCall.attnTp] else [])
        ++ (if t.tp_size ≠ 1 then [GroupCall.fullTp] else []) := by
  by_cases ha : t.attn_tp_size = 1 <;> by_cases htp : t.tp_size = 1 <;>
    rcases h : drainStep t mailbox r with _ | l <;>
      simp [recvRequests, ha, htp, h]

/-- C4: with data-parallel attention disabled and tp_size = 1,
_recv_requests returns the leader's drained sequence unchanged and issues no
collective broadcast call; in partitioned mode a broadcast over a size-1
group is likewise elided. -/
theorem recv_requests_size_one_elides_broadcast (t : Topology)
    (mailbox : Nat → List Req) (r : Nat) (hr : r < t.tp_size) :
    (t.tp_size = 1 → recvRequests false t mailbox r = (some (mailbox r), []))
    ∧ (t.attn_tp_size = 1 →
        GroupCall.attnTp ∉ (recvRequests true t mailbox r).2)
    ∧ (t.tp_size = 1 →
        GroupCall.fullTp ∉ (recvRequests true t mailbox r).2) := by
  refine ⟨?_, ?_, ?_⟩
  · intro htp
    have hr0 : r = 0 := Nat.lt_one_iff.mp (htp ▸ hr)
    subst hr0
    simp [recvRequests, drainStep, Topology.attnTpRank, htp,
      drainLoop_nil_eq]
  · intro ha
    rw [recvRequests_dp_calls]
    simp [ha]
  · intro htp
    rw [recvRequests_dp_calls]
    simp [htp]

/-- Witness for C4: a single-rank deployment (tp_size = attn_tp_size = 1)
returns the drained mailbox unchanged with no collective call, and both
partitioned-mode broadcasts are elided. -/
theorem recv_requests_size_one_elides_broadcast_witness :
    (0 : Nat) < 1 ∧
    recvRequests false ⟨1, 1⟩ scenarioMailbox 0 =
      (some (scenarioMailbox 0), []) ∧
    GroupCall.attnTp ∉ (recvRequests true ⟨1, 1⟩ scenarioMailbox 0).2 ∧
    GroupCall.fullTp ∉ (recvRequests true ⟨1, 1⟩ scenarioMailbox 0).2 := by
  obtain ⟨h1, h2, h3⟩ :=
    recv_requests_size_one_elides_broadcast ⟨1, 1⟩ scenarioMailbox 0
      (by decide)
  exact ⟨by decide, h1 rfl, h2 rfl, h3 rfl⟩

/-- Handler entry points of the scheduler collaborator, one per registration
in SchedulerCommunicator.__init__ (lines 80-106); the last two stand for the
wrapping lambdas around release/resume_memory_occupation. -/
inductive Handler where
  | handleGenerateRequest
  | handleEmbeddingRequest
  | flushCacheWrapped
  | abortRequest
  | updateWeightsFromDisk
  | initWeightsUpdateGroup
  | updateWeightsFromDistributed
  | updateWeightsFromTensor
  | getWeightsByName
  | profile
  | openSession
  | closeSession
  | releaseMemoryOccupation
  | resumeMemoryOccupation
  deriving DecidableEq

/-- The registration list passed to TypeBasedDispatcher in
SchedulerCommunicator.__init__ (lines 80-106), in source order: each entry is
the isinstance test for one request class paired with the registered handler.
The io_struct request classes are unrelated, so each test matches exactly its
own variant. -/
def requestDispatcherTable : List ((Req → Bool) × Handler) :=
  [ (fun q => match q with | .tokenizedGenerate _ => true | _ => false,
     Handler.handleGenerateRequest),
    (fun q => match q with | .tokenizedEmbedding _ => true | _ => false,
     Handler.handleEmbeddingRequest),
    (fun q => match q with | .flushCache => true | _ => false,
     Handler.flushCacheWrapped),
    (fun q => match q with | .abort _ => true | _ => false,
     Handler.abortRequest),
    (fun q => match q with | .updateWeightFromDisk => true | _ => false,
     Handler.updateWeightsFromDisk),
    (fun q => match q with | .initWeightsUpdateGroup => true | _ => false,
     Handler.initWeightsUpdateGroup),
    (fun q => match q with | .updateWeightsFromDistributed => true
                           | _ => false,
     Handler.updateWeightsFromDistributed),
    (fun q => match q with | .updateWeightsFromTensor => true | _ => false,
     Handler.updateWeightsFromTensor),
    (fun q => match q with | .getWeightsByName => true | _ => false,
     Handler.getWeightsByName),
    (fun q => match q with | .profile => true | _ => false,
     Handler.profile),
    (fun q => match q with | .openSession => true | _ => false,
     Handler.openSession),
    (fun q => match q with | .closeSession => true | _ => false,
     Handler.closeSession),
    (fun q => match q with | .releaseMemoryOccupation => true | _ => false,
     Handler.releaseMemoryOccupation),
    (fun q => match q with | .resumeMemoryOccupation => true | _ => false,
     Handler.resumeMemoryOccupation) ]

/-- Modelled from the spec: TypeBasedDispatcher lives in sglang.utils, which
is not under src/.  Spec section 4.2 and section 9: route(request) returns
the handler of the first registration whose type matches the request; an
unregistered variant is a fatal error (none here). -/
def dispatchHandler (q : Req) : Option Handler :=
  (requestDispatcherTable.find? (fun entry => entry.1 q)).map Prod.snd

/-- The handler the registration table associates to each request variant,
written out as the expected variant-to-handler map; dispatch_resolves below
proves the table-driven dispatcher agrees with it. -/
def handlerFor : Req → Handler
  | .tokenizedGenerate _ => .handleGenerateRequest
  | .tokenizedEmbedding _ => .handleEmbeddingRequest
  | .flushCache => .flushCacheWrapped
  | .abort _ => .abortRequest
  | .updateWeightFromDisk => .updateWeightsFromDisk
  | .initWeightsUpdateGroup => .initWeightsUpdateGroup
  | .updateWeightsFromDistributed => .updateWeightsFromDistributed
  | .updateWeightsFromTensor => .updateWeightsFromTensor
  | .getWeightsByName => .getWeightsByName
  | .profile => .profile
  | .openSession => .openSession
  | .closeSession => .closeSession
  | .releaseMemoryOccupation => .releaseMemoryOccupation
  | .resumeMemoryOccupation => .resumeMemoryOccupation

lemma dispatch_resolves (q : Req) : dispatchHandler q = some (handlerFor q) := by
  cases q <;> rfl

/-- The single value ever stored in the scheduler core's
on_generation_output callback slot (scheduler.py line 108). -/
inductive OutputSink where
  | handleGenerationOutput
  deriving DecidableEq

/-- Observable state of a SchedulerCommunicator and its scheduler core:
the core's generation-output callback slot together with a count of writes
to it, the messages pushed on the two outbound sockets, and the trace of
handler invocations performed by the request dispatcher.  alpha is the type
of handler outputs / generation outputs (opaque python objects). -/
structure CommState (α : Type) where
  onGenerationOutput : Option OutputSink := none
  callbackWrites : Nat := 0
  sentToTokenizer : List α := []
  sentToDetokenizer : List α := []
  invocations : List (Handler × Req) := []
  deriving DecidableEq

/-- self._send_to_tokenizer.send_pyobj: a real PUSH socket only when
attn_tp_rank == 0 (lines 60-62); otherwise the inert
SimpleNamespace(send_pyobj=lambda x: None) of line 76. -/
def sendToTokenizerSt {α : Type} (isLeader : Bool) (x : α)
    (s : CommState α) : CommState α :=
  if isLeader then { s with sentToTokenizer := s.sentToTokenizer ++ [x] }
  else s

/-- self._send_to_detokenizer.send_pyobj: a real PUSH socket only when
attn_tp_rank == 0 (lines 64-73); otherwise the inert stand-in of line 77. -/
def sendToDetokenizerSt {α : Type} (isLeader : Bool) (x : α)
    (s : CommState α) : CommState α :=
  if isLeader then
    { s with sentToDetokenizer := s.sentToDetokenizer ++ [x] }
  else s

/-- The callback wiring performed by SchedulerCommunicator.__init__
(line 108): core.on_generation_output = self._handle_generation_output.
This is the only write to the slot anywhere in the program. -/
def SchedulerCommunicator.initSt {α : Type} (s : CommState α) : CommState α :=
  { s with onGenerationOutput := some OutputSink.handleGenerationOutput,
           callbackWrites := s.callbackWrites + 1 }

/-- SchedulerCommunicator._process_input_requests (lines 166-170): for each
received request in order, dispatch it to the registered handler (results
gives the collaborator's return value), record the invocation, and forward
the output to the tokenizer socket when it is not None.  none models the
fatal unregistered-variant error of the dispatcher. -/
def processInputRequestsSt {α : Type} (isLeader : Bool)
    (results : Handler → Req → Option α) :
    List Req → CommState α → Option (CommState α)
  | [], s => some s
  | q :: rest, s =>
    match dispatchHandler q with
    | none => none
    | some h =>
      let s1 := { s with invocations := s.invocations ++ [(h, q)] }
      let s2 :=
        match results h q with
        | some out => sendToTokenizerSt isLeader out s1
        | none => s1
      processInputRequestsSt isLeader results rest s2

/-- SchedulerCommunicator._handle_generation_output (lines 172-173). -/
def handleGenerationOutputSt {α : Type} (isLeader : Bool) (obj : α)
    (s : CommState α) : CommState α :=
  sendToDetokenizerSt isLeader obj s

lemma processInputRequestsSt_eq {α : Type} (isLeader : Bool)
    (results : Handler → Req → Option α) :
    ∀ (reqs : List Req) (s : CommState α),
      processInputRequestsSt isLeader results reqs s =
        some { s with
          invocations :=
            s.invocations ++ reqs.map (fun q => (handlerFor q, q)),
          sentToTokenizer := s.sentToTokenizer ++
            (if isLeader then
              reqs.filterMap (fun q => results (handlerFor q) q)
            else []) } := by
  intro reqs
  induction reqs with
  | nil =>
    intro s
    cases isLeader <;> simp [processInputRequestsSt]
  | cons q rest ih =>
    intro s
    rw [processInputRequestsSt, dispatch_resolves q]
    rcases hres : results (handlerFor q) q with _ | out <;>
      cases isLeader <;>
        simp [sendToTokenizerSt, ih, hres, List.filterMap_cons]

/-- C3: _process_input_requests invokes, for each received request in list
order, exactly the handler the dispatcher table registers for its variant
(dispatchHandler agrees with the variant-to-handler map handlerFor), records
one invocation per request, and forwards the handler's return value to the
tokenizer socket precisely when it is not None, preserving order. -/
theorem process_input_requests_routes_each_once {α : Type}
    (results : Handler → Req → Option α) (reqs : List Req)
    (s : CommState α) :
    processInputRequestsSt true results reqs s =
      some { s with
        invocations := s.invocations ++ reqs.map (fun q => (handlerFor q, q)),
        sentToTokenizer := s.sentToTokenizer ++
          reqs.filterMap (fun q => results (handlerFor q) q) }
    ∧ ∀ q : Req, dispatchHandler q = some (handlerFor q) :=
  ⟨by simp [processInputRequestsSt_eq], dispatch_resolves⟩

/-- C8: on a non-leader rank both outbound send targets are inert — routing
still records the same handler invocations as on the leader, but forwarding
a non-empty handler result and emitting a generation-output notification
leave the transport state (both outbound message lists, and everything else)
unchanged. -/
theorem nonleader_outbound_sends_are_inert {α : Type}
    (results : Handler → Req → Option α) (reqs : List Req) (obj : α)
    (s : CommState α) :
    processInputRequestsSt false results reqs s =
      some { s with
        invocations :=
          s.invocations ++ reqs.map (fun q => (handlerFor q, q)) }
    ∧ handleGenerationOutputSt false obj s = s :=
  ⟨by simpa using processInputRequestsSt_eq false results reqs s,
   by simp [handleGenerationOutputSt, sendToDetokenizerSt]⟩

/-- C5: SchedulerCommunicator construction writes the core's
generation-output callback slot exactly once, storing the communicator's own
generation-output handler, and no later operation of the communicator
(request processing or generation-output emission) writes the slot again. -/
theorem generation_output_sink_set_once {α : Type} (s : CommState α)
    (isLeader : Bool) (results : Handler → Req → Option α)
    (reqs : List Req) (obj : α) :
    ((SchedulerCommunicator.initSt s).onGenerationOutput =
        some OutputSink.handleGenerationOutput
      ∧ (SchedulerCommunicator.initSt s).callbackWrites =
          s.callbackWrites + 1)
    ∧ (∀ s2, processInputRequestsSt isLeader results reqs s = some s2 →
        s2.onGenerationOutput = s.onGenerationOutput
          ∧ s2.callbackWrites = s.callbackWrites)
    ∧ ((handleGenerationOutputSt isLeader obj s).onGenerationOutput =
          s.onGenerationOutput
      ∧ (handleGenerationOutputSt isLeader obj s).callbackWrites =
          s.callbackWrites) := by
  refine ⟨⟨rfl, rfl⟩, ?_, ?_⟩
  · intro s2 h
    rw [processInputRequestsSt_eq] at h
    cases Option.some.inj h
    exact ⟨rfl, rfl⟩
  · cases isLeader <;>
      simp [handleGenerationOutputSt, sendToDetokenizerSt]

/-- Witness for C5: one concrete processing step (a profile request whose
handler returns None) leaves the callback slot exactly as it was. -/
theorem generation_output_sink_set_once_witness :
    processInputRequestsSt true (fun _ _ => (none : Option Nat))
        [Req.profile] {} =
      some { invocations := [(Handler.profile, Req.profile)] }
    ∧ ({ invocations := [(Handler.profile, Req.profile)] } :
        CommState Nat).onGenerationOutput =
      ({} : CommState Nat).onGenerationOutput := by
  have h : processInputRequestsSt true (fun _ _ => (none : Option Nat))
      [Req.profile] ({} : CommState Nat) =
      some { invocations := [(Handler.profile, Req.profile)] } := by rfl
  exact ⟨h,
    ((generation_output_sink_set_once ({} : CommState Nat) true
        (fun _ _ => none) [Req.profile] 0).2.1 _ h).1⟩

/-- A python exception caught by the `except Exception` clause of
run_scheduler_process (line 226). -/
structure PyError where
  code : Nat := 0
  deriving DecidableEq

/-- The two capacity figures the scheduler exposes after construction
(scheduler.py lines 218-219). -/
structure SchedInfo where
  max_total_num_tokens : Nat
  max_req_input_len : Nat
  deriving DecidableEq

/-- The structured readiness message written to the parent-owned pipe
(scheduler.py lines 215-221). -/
structure ReadyMsg where
  status : String
  max_total_num_tokens : Nat
  max_req_input_len : Nat
  deriving DecidableEq

def readyMsg (info : SchedInfo) : ReadyMsg :=
  { status := "ready",
    max_total_num_tokens := info.max_total_num_tokens,
    max_req_input_len := info.max_req_input_len }

/-- Externally observable events of run_scheduler_process: the pipe
handshake, the start of each main-loop iteration (one iteration = one
recv_and_process_input_requests plus process_batch), the error log, and the
SIGQUIT sent to the parent process. -/
inductive ProcEvent where
  | pipeSend (msg : ReadyMsg)
  | iteration (n : Nat)
  | logError
  | signalParent
  deriving DecidableEq

def ProcEvent.isPipeSend : ProcEvent → Bool
  | .pipeSend _ => true
  | _ => false

/-- The while-True loop of run_scheduler_process (lines 223-225): outcome n
tells whether the n-th iteration raises (some error) or completes (none).
The loop never exits normally; fuel bounds how far we unroll it, returning
the iteration events emitted so far and the exception that escaped, if
any. -/
def mainLoop (outcome : Nat → Option PyError) :
    Nat → Nat → List ProcEvent × Option PyError
  | 0, _ => ([], none)
  | fuel + 1, n =>
    match outcome n with
    | some e => ([ProcEvent.iteration n], some e)
    | none =>
      let rest := mainLoop outcome fuel (n + 1)
      (ProcEvent.iteration n :: rest.1, rest.2)

/-- run_scheduler_process (lines 205-229): the try block constructs the
scheduler and communicator (consInit is the construction outcome), sends the
readiness handshake on the parent pipe, and enters the main loop; the
`except Exception` clause logs the traceback and sends the parent exactly
one SIGQUIT, after which the function returns and the child stops. -/
def runSchedulerProcess (consInit : Except PyError SchedInfo)
    (outcome : Nat → Option PyError) (fuel : Nat) : List ProcEvent :=
  match consInit with
  | .error _ => [ProcEvent.logError, ProcEvent.signalParent]
  | .ok info =>
    let looped := mainLoop outcome fuel 0
    ProcEvent.pipeSend (readyMsg info) :: looped.1 ++
      (match looped.2 with
       | some _ => [ProcEvent.logError, ProcEvent.signalParent]
       | none => [])

lemma mainLoop_first_fail (outcome : Nat → Option PyError) (e : PyError) :
    ∀ (k n fuel : Nat), (∀ j, j < k → outcome (n + j) = none) →
      outcome (n + k) = some e → k < fuel →
      mainLoop outcome fuel n =
        ((List.range (k + 1)).map (fun j => ProcEvent.iteration (n + j)),
         some e) := by
  intro k
  induction k with
  | zero =>
    intro n fuel _ hk hf
    match fuel, hf with
    | f + 1, _ =>
      rw [mainLoop]
      simp only [Nat.add_zero] at hk
      rw [hk]
      have h1 : List.range 1 = [0] := rfl
      simp [h1]
  | succ k ih =>
    intro n fuel hbefore hk hf
    match fuel, hf with
    | f + 1, hf =>
      rw [mainLoop]
      have h0 : outcome n = none := by
        have := hbefore 0 (Nat.succ_pos k)
        simpa using this
      rw [h0]
      have hrest := ih (n + 1) f
        (fun j hj => by
          have := hbefore (j + 1) (Nat.succ_lt_succ hj)
          simpa [Nat.add_comm, Nat.add_assoc, Nat.add_left_comm] using this)
        (by simpa [Nat.add_comm, Nat.add_assoc, Nat.add_left_comm] using hk)
        (Nat.lt_of_succ_lt_succ hf)
      rw [hrest]
      simp [List.range_succ_eq_map, Function.comp,
        Nat.add_comm, Nat.add_assoc, Nat.add_left_comm]

/-- C7: an uncaught exception in the main loop of run_scheduler_process
(first raised in iteration k) yields the full event trace — handshake, then
iterations 0..k, then the error log and exactly one SIGQUIT to the parent —
so no iteration beyond k runs and the child stops after signaling. -/
theorem main_loop_exception_signals_parent_once
    (info : SchedInfo) (outcome : Nat → Option PyError) (e : PyError)
    (k fuel : Nat) (hbefore : ∀ j, j < k → outcome j = none)
    (hk : outcome k = some e) (hf : k < fuel) :
    runSchedulerProcess (.ok info) outcome fuel =
      ProcEvent.pipeSend (readyMsg info) ::
        (List.range (k + 1)).map ProcEvent.iteration ++
        [ProcEvent.logError, ProcEvent.signalParent]
    ∧ (runSchedulerProcess (.ok info) outcome fuel).count
        ProcEvent.signalParent = 1
    ∧ ∀ n, ProcEvent.iteration n ∈
        runSchedulerProcess (.ok info) outcome fuel → n ≤ k := by
  have hloop := mainLoop_first_fail outcome e k 0 fuel
    (fun j hj => by simpa using hbefore j hj) (by simpa using hk) hf
  have htrace : runSchedulerProcess (.ok info) outcome fuel =
      ProcEvent.pipeSend (readyMsg info) ::
        (List.range (k + 1)).map ProcEvent.iteration ++
        [ProcEvent.logError, ProcEvent.signalParent] := by
    rw [runSchedulerProcess, hloop]
    simp
  refine ⟨htrace, ?_, ?_⟩
  · rw [htrace]
    have hnone : ((List.range (k + 1)).map ProcEvent.iteration).count
        ProcEvent.signalParent = 0 := by
      rw [List.count_eq_zero]
      intro hmem
      rcases List.mem_map.mp hmem with ⟨j, _, hj⟩
      exact ProcEvent.noConfusion hj
    simp [List.count_append, List.count_cons, hnone]
  · intro n hn
    rw [htrace] at hn
    rcases List.mem_append.mp hn with h | h
    · rcases List.mem_cons.mp h with h2 | h2
      · exact absurd h2 (by simp)
      · rcases List.mem_map.mp h2 with ⟨j, hj, hje⟩
        cases ProcEvent.iteration.inj hje
        exact Nat.lt_succ_iff.mp (List.mem_range.mp hj)
    · simp at h

def witnessOutcome : Nat → Option PyError :=
  fun n => if n = 1 then some { code := 7 } else none

/-- Witness for C7: with construction succeeding and the second iteration
raising, the trace is handshake, iterations 0 and 1, one log and one
SIGQUIT. -/
theorem main_loop_exception_signals_parent_once_witness :
    runSchedulerProcess (.ok ⟨100, 10⟩) witnessOutcome 5 =
      [ProcEvent.pipeSend ⟨"ready", 100, 10⟩, ProcEvent.iteration 0,
       ProcEvent.iteration 1, ProcEvent.logError, ProcEvent.signalParent]
    ∧ (runSchedulerProcess (.ok ⟨100, 10⟩) witnessOutcome 5).count
        ProcEvent.signalParent = 1 := by
  obtain ⟨h1, h2, _⟩ := main_loop_exception_signals_parent_once
    ⟨100, 10⟩ witnessOutcome { code := 7 } 1 5
    (by decide) (by decide) (by decide)
  exact ⟨by rw [h1]; rfl, h2⟩

lemma mainLoop_no_pipe_send (outcome : Nat → Option PyError) :
    ∀ (fuel n : Nat),
      ((mainLoop outcome fuel n).1.countP ProcEvent.isPipeSend) = 0 := by
  intro fuel
  induction fuel with
  | zero => intro n; simp [mainLoop]
  | succ f ih =>
    intro n
    rw [mainLoop]
    rcases h : outcome n with _ | e
    · simp [ih, ProcEvent.isPipeSend]
    · simp [ProcEvent.isPipeSend]

/-- C9: when construction succeeds, run_scheduler_process writes exactly one
message to the parent pipe, it is the very first event (hence before any
main-loop iteration), and it carries the readiness status together with the
maximum total token budget and the maximum single-request input length. -/
theorem startup_handshake_single_ready_message (info : SchedInfo)
    (outcome : Nat → Option PyError) (fuel : Nat) :
    (runSchedulerProcess (.ok info) outcome fuel).head? =
      some (ProcEvent.pipeSend
        { status := "ready",
          max_total_num_tokens := info.max_total_num_tokens,
          max_req_input_len := info.max_req_input_len })
    ∧ (runSchedulerProcess (.ok info) outcome fuel).countP
        ProcEvent.isPipeSend = 1 := by
  constructor
  · rw [runSchedulerProcess]
    simp [readyMsg]
  · rw [runSchedulerProcess]
    rcases h : (mainLoop outcome fuel 0).2 with _ | e <;>
      simp [List.countP_append, mainLoop_no_pipe_send,
        ProcEvent.isPipeSend, readyMsg]

/-
Embedding of python/sglang/srt/layers/moe/a2a_output.py.
-/

/-- Opaque stand-in for torch.Tensor; the claims only concern the format
tags, never tensor contents. -/
structure Tensor where
  tid : Nat := 0
  deriving DecidableEq

/-- DispatchOutputFormat (a2a_output.py lines 7-19). -/
inductive DispatchOutputFormat where
  | standard
  | deepep_normal
  | deepep_ll
  deriving DecidableEq, BEq

/-- self == DispatchOutputFormat.standard (line 13). -/
def DispatchOutputFormat.is_standard (f : DispatchOutputFormat) : Bool :=
  f == DispatchOutputFormat.standard

/-- self == DispatchOutputFormat.deepep_normal (line 16). -/
def DispatchOutputFormat.is_deepep_normal (f : DispatchOutputFormat) : Bool :=
  f == DispatchOutputFormat.deepep_normal

/-- self == DispatchOutputFormat.deepep_ll (line 19). -/
def DispatchOutputFormat.is_deepep_ll (f : DispatchOutputFormat) : Bool :=
  f == DispatchOutputFormat.deepep_ll

/-- StandardDispatchOutput (lines 30-35): a NamedTuple with no fields. -/
structure StandardDispatchOutput where
  deriving DecidableEq

def StandardDispatchOutput.format (_ : StandardDispatchOutput) :
    DispatchOutputFormat :=
  DispatchOutputFormat.standard

/-- DeepEPNormalOutput (lines 38-47): hidden states (a tensor or a pair of
tensors), optional top-k indices and weights, per-expert received-token
counts. -/
structure DeepEPNormalOutput where
  hidden_states : Tensor ⊕ (Tensor × Tensor)
  topk_idx : Option Tensor
  topk_weights : Option Tensor
  num_recv_tokens_per_expert_list : List Int
  deriving DecidableEq

def DeepEPNormalOutput.format (_ : DeepEPNormalOutput) :
    DispatchOutputFormat :=
  DispatchOutputFormat.deepep_normal

/-- DeepEPLLOutput (lines 50-58): fp8 hidden states with scale, per-slot
mask, expected token count. -/
structure DeepEPLLOutput where
  hidden_states_fp8 : Tensor × Tensor
  masked_m : Tensor
  expected_m : Int
  deriving DecidableEq

def DeepEPLLOutput.format (_ : DeepEPLLOutput) : DispatchOutputFormat :=
  DispatchOutputFormat.deepep_ll

/-- C6: each DispatchOutput payload variant's format tag is the constant
matching its own variant and never one of the other two formats. -/
theorem dispatch_output_format_fidelity (x : StandardDispatchOutput)
    (y : DeepEPNormalOutput) (z : DeepEPLLOutput) :
    (x.format = DispatchOutputFormat.standard
      ∧ x.format ≠ DispatchOutputFormat.deepep_normal
      ∧ x.format ≠ DispatchOutputFormat.deepep_ll)
    ∧ (y.format = DispatchOutputFormat.deepep_normal
      ∧ y.format ≠ DispatchOutputFormat.standard
      ∧ y.format ≠ DispatchOutputFormat.deepep_ll)
    ∧ (z.format = DispatchOutputFormat.deepep_ll
      ∧ z.format ≠ DispatchOutputFormat.standard
      ∧ z.format ≠ DispatchOutputFormat.deepep_normal) :=
  ⟨⟨rfl, by simp [StandardDispatchOutput.format],
    by simp [StandardDispatchOutput.format]⟩,
   ⟨rfl, by simp [DeepEPNormalOutput.format],
    by simp [DeepEPNormalOutput.format]⟩,
   ⟨rfl, by simp [DeepEPLLOutput.format],
    by simp [DeepEPLLOutput.format]⟩⟩

/-- C10: on the closed enumeration DispatchOutputFormat, each of the three
predicates is true precisely on its namesake member, so on every value
exactly one of them returns true. -/
theorem dispatch_format_predicates_partition (f : DispatchOutputFormat) :
    (f.is_standard = true ↔ f = DispatchOutputFormat.standard)
    ∧ (f.is_deepep_normal = true ↔ f = DispatchOutputFormat.deepep_normal)
    ∧ (f.is_deepep_ll = true ↔ f = DispatchOutputFormat.deepep_ll)
    ∧ [f.is_standard, f.is_deepep_normal, f.is_deepep_ll].count true = 1 := by
  cases f <;> decide

end Sglang
